import Mathlib

/-!
Shallow embedding of `src/maps_agent.py`: the pydantic data model, the
request validation, the prompt/instruction construction, and the
orchestration in `run_agents`, together with theorems checking the
specification's claims against it.

Numbers that Python holds as `float` are modelled as rationals; machine
floating point plays no role in the claims checked here beyond field
identity and Python truthiness of `0.0`.
-/

namespace MapsAgent

/-- `LocationItem` from `src/maps_agent.py` (lines 28-35): a business record. -/
structure LocationItem where
  location_name : String
  latitude : ℚ
  longitude : ℚ
  rating : Option ℚ := none
  number_of_reviews : Option Int := none
  description : Option String := none
  distance_meters : Option ℚ := none
deriving DecidableEq, Repr

/-- `BusinessListOutput` (lines 38-39). -/
structure BusinessListOutput where
  businesses : List LocationItem
deriving DecidableEq, Repr

/-- `SimilarAreaOutput` (lines 42-46). -/
structure SimilarAreaOutput where
  center_latitude : ℚ
  center_longitude : ℚ
  radius_meters : ℚ
  matched_businesses : List LocationItem
deriving DecidableEq, Repr

/-- `RunRequest` (lines 49-55). `industries` is `Optional[List[str]] = []`:
absent means the default `some []`, an explicit JSON null means `none`. -/
structure RunRequest where
  source_address : String
  source_radius : Int
  destination_address : String
  destination_radius : Int
  comparison_city : String
  industries : Option (List String) := some []
deriving DecidableEq, Repr

/-- `RunResponse` (lines 58-61). -/
structure RunResponse where
  source_businesses : BusinessListOutput
  destination_businesses : BusinessListOutput
  similar_area : SimilarAreaOutput
deriving DecidableEq, Repr

/-! ### JSON values and request validation

Pydantic validates the inbound JSON body into a `RunRequest`.  We model a
JSON tree and the per-field validation the model class declares: required
strings, required integers, and the optional list of strings.
-/

/-- A JSON value; numbers are rationals. -/
inductive Json where
  | null : Json
  | bool (b : Bool) : Json
  | num (q : ℚ) : Json
  | str (s : String) : Json
  | arr (xs : List Json) : Json
  | obj (kvs : List (String × Json)) : Json

/-- First binding of a key in a JSON object body. -/
def Json.field : List (String × Json) → String → Option Json
  | [], _ => none
  | (k, v) :: rest, key => if k = key then some v else Json.field rest key

/-- Look a field up in a JSON object; anything else is not an object. -/
def getField (j : Json) (k : String) : Except String Json :=
  match j with
  | .obj kvs =>
    match Json.field kvs k with
    | some v => .ok v
    | none => .error ("field required: " ++ k)
  | _ => .error "object expected"

/-- Validate a JSON value as a Python `str`. -/
def asStr : Json → Except String String
  | .str s => .ok s
  | _ => .error "string expected"

/-- Validate a JSON value as a Python `int` (a JSON number with no
fractional part). -/
def asInt : Json → Except String Int
  | .num q => if q.den = 1 then .ok q.num else .error "integer expected"
  | _ => .error "integer expected"

/-- Validate a JSON array body as a list of strings. -/
def asStrList : List Json → Except String (List String)
  | [] => .ok []
  | j :: rest => do
    let s ← asStr j
    let ss ← asStrList rest
    .ok (s :: ss)

/-- A required string field of the request body. -/
def fieldStr (j : Json) (k : String) : Except String String := do
  asStr (← getField j k)

/-- A required integer field of the request body.  The declaration
`source_radius : int` constrains only the type: there is no positivity
bound on either radius. -/
def fieldInt (j : Json) (k : String) : Except String Int := do
  asInt (← getField j k)

/-- The `industries : Optional[List[str]] = []` field: absent gives the
default `[]`, an explicit null gives `None`, otherwise a list of strings. -/
def fieldIndustries (j : Json) (k : String) : Except String (Option (List String)) :=
  match j with
  | .obj kvs =>
    match Json.field kvs k with
    | none => .ok (some [])
    | some .null => .ok none
    | some (.arr xs) => do
      let ss ← asStrList xs
      .ok (some ss)
    | some _ => .error "list of strings expected"
  | _ => .error "object expected"

/-- Pydantic validation of the request body into a `RunRequest`
(lines 49-55): every declared field validated by its annotation. -/
def RunRequest.model_validate (j : Json) : Except String RunRequest :=
  match fieldStr j "source_address" with
  | .error e => .error e
  | .ok sa =>
    match fieldInt j "source_radius" with
    | .error e => .error e
    | .ok sr =>
      match fieldStr j "destination_address" with
      | .error e => .error e
      | .ok da =>
        match fieldInt j "destination_radius" with
        | .error e => .error e
        | .ok dr =>
          match fieldStr j "comparison_city" with
          | .error e => .error e
          | .ok cc =>
            match fieldIndustries j "industries" with
            | .error e => .error e
            | .ok ind =>
              .ok { source_address := sa, source_radius := sr, destination_address := da,
                    destination_radius := dr, comparison_city := cc, industries := ind }

/-! ### The agent runtime and the orchestration -/

/-- A failure raised by the agent runtime (`AgentsException`); `desc` is
its Python string rendering `str(e)`. -/
structure AgentsError where
  desc : String
deriving DecidableEq, Repr

/-- A Python-level error that is not an `AgentsException`; the only one
the orchestration can raise itself is the `TypeError` from
`" or ".join(None)`. -/
inductive PyError where
  | typeError (msg : String) : PyError
deriving DecidableEq, Repr

/-- A failure inside the `try` block: an agent-runtime failure or a plain
Python error. -/
inductive Failure where
  | agents (e : AgentsError) : Failure
  | py (e : PyError) : Failure
deriving DecidableEq, Repr

/-- The `output_type` an `Agent` is declared with. -/
inductive OutputTy where
  | businessList : OutputTy
  | similarArea : OutputTy
deriving DecidableEq, Repr

/-- One `Runner.run(agent, prompt, max_turns=...)` call: the agent's
declared name, model, instructions and output type, the prompt, and the
turn budget. -/
structure Invocation where
  agentName : String
  model : String
  instructions : String
  prompt : String
  output_type : OutputTy
  max_turns : Nat
deriving DecidableEq, Repr

/-- Modelled from the spec: the external agent runtime and the Mapping
Tool Gateway (the `agents` framework's `Runner.run`, `Agent`, and
`MCPServerStdio`, which are not part of this repository).  `gateway` is
the scoped acquisition of the tool subprocess; per the spec its failures
(subprocess fails to start, credential missing) are surfaced identically
to agent-runtime failures.  `runBusiness` and `runSimilarity` give the
runtime's verdict on an invocation; the runtime enforces the declared
output schema, so a success carries a value of the declared type. -/
structure AgentRuntime where
  gateway : Except AgentsError Unit
  runBusiness : Invocation → Except AgentsError BusinessListOutput
  runSimilarity : Invocation → Except AgentsError SimilarAreaOutput

/-- Python `" or ".join(industries)`: joins a list of strings; applied to
`None` it raises a `TypeError` instead. -/
def joinIndustries : Option (List String) → Except PyError String
  | none => .error (.typeError "can only join an iterable")
  | some l => .ok (String.intercalate " or " l)

/-- The Business Finder instructions (lines 72-83), after the industries
join has been interpolated. -/
def businessInstructions (address : String) (radius : Int) (joined : String) : String :=
  "You are a Google Maps agent tasked with identifying businesses in " ++ joined ++
  " within a " ++ toString radius ++ "m radius around " ++ address ++
  ". For each business, return:\n- location_name (string)\n- latitude (float)\n" ++
  "- longitude (float)\n- rating (optional float)\n- number_of_reviews (optional int)\n" ++
  "- description (what the business does)\n- distance_meters (from starting point)\n" ++
  "Use only interactive, visible elements and report accurate results."

/-- The Business Finder prompt (lines 87-89). -/
def businessPrompt (address : String) (radius : Int) (joined : String) : String :=
  "Identify and return a list of all the businesses in " ++ joined ++ " in a " ++
  toString radius ++ " meter radius near " ++ address ++ "."

/-- The `Runner.run` call issued by `run_business_agent` (lines 66-91):
model `gpt-4.1-nano`, output type `BusinessListOutput`, `max_turns=15`. -/
def businessInvocation (address : String) (radius : Int) (joined : String) : Invocation :=
  { agentName := "Business Finder - " ++ address
    model := "gpt-4.1-nano"
    instructions := businessInstructions address radius joined
    prompt := businessPrompt address radius joined
    output_type := .businessList
    max_turns := 15 }

/-- `run_business_agent` (lines 66-92): build the agent (the industries
join runs first, inside the instructions f-string), run it, and return
`result.final_output.businesses`.  The first component records the
invocations actually started. -/
def run_business_agent (rt : AgentRuntime) (address : String) (radius : Int)
    (industries : Option (List String)) :
    List Invocation × Except Failure (List LocationItem) :=
  match joinIndustries industries with
  | .error e => ([], .error (.py e))
  | .ok joined =>
    let inv := businessInvocation address radius joined
    match rt.runBusiness inv with
    | .error e => ([inv], .error (.agents e))
    | .ok out => ([inv], .ok out.businesses)

/-- Python f-string rendering of an optional description: `None` prints
as the string `None`. -/
def descRepr : Option String → String
  | none => "None"
  | some s => s

/-- `b.rating or 'N/A'` (line 149): Python `or` takes the right operand
when the rating is falsy, i.e. `None` or `0.0`. -/
def ratingRepr : Option ℚ → String
  | none => "N/A"
  | some q => if q = 0 then "N/A" else toString q

/-- `b.number_of_reviews or 0` (line 149): `None` and `0` both render as
`0`. -/
def reviewsRepr : Option Int → String
  | none => "0"
  | some n => if n = 0 then "0" else toString n

/-- One line of the per-business summary embedded in the similarity
prompt (line 149). -/
def businessLine (b : LocationItem) : String :=
  "- " ++ b.location_name ++ " (" ++ descRepr b.description ++ "), rated " ++
  ratingRepr b.rating ++ " with " ++ reviewsRepr b.number_of_reviews ++ " reviews"

/-- `business_list_str` (lines 148-151). -/
def business_list_str (bs : List LocationItem) : String :=
  String.intercalate "\n" (bs.map businessLine)

/-- The Similar Area Finder instructions (lines 134-144); note the two
adjacent string literals join `list.` and `Your output` with no space. -/
def similarityInstructions (city : String) (joined : String) : String :=
  "You are a Google Maps agent tasked with finding a location in " ++ city ++
  " that has a similar business composition regarding " ++ joined ++
  " to a provided list.Your output must include:\n- center_latitude (float)\n" ++
  "- center_longitude (float)\n- radius_meters (float)\n" ++
  "- matched_businesses (list of businesses matching the original cluster, each with location_name, " ++
  "latitude, longitude, rating, number_of_reviews, description, distance_meters from center)"

/-- `similarity_prompt` (lines 153-157): built from the source business
list and the comparison city only. -/
def similarityPrompt (city : String) (bs : List LocationItem) : String :=
  "Based on the following list of businesses:\n\n" ++ business_list_str bs ++
  "\n\nFind a similar area in " ++ city ++
  " with a comparable mix of businesses in retail and production. " ++
  "Return a center location (lat/lon), the search radius in meters, and a list of matching businesses."

/-- The `Runner.run` call for the similarity agent (lines 129-159): model
`gpt-4.1`, output type `SimilarAreaOutput`, `max_turns=20`.  It depends
on the comparison city, the industries join, and the source business
list; the destination list does not occur. -/
def similarityInvocation (city : String) (joined : String) (bs : List LocationItem) : Invocation :=
  { agentName := "Similar Area Finder"
    model := "gpt-4.1"
    instructions := similarityInstructions city joined
    prompt := similarityPrompt city bs
    output_type := .similarArea
    max_turns := 20 }

/-- What the endpoint hands back to the transport layer: a successful
`RunResponse`, an `HTTPException` (status code and detail string), or a
Python error not caught by the `except AgentsException` clause. -/
inductive RunResult where
  | ok (r : RunResponse) : RunResult
  | httpError (status : Nat) (detail : String) : RunResult
  | uncaught (e : PyError) : RunResult
deriving DecidableEq, Repr

/-- How a `Failure` escapes the `try` block (lines 166-167): an
`AgentsException` is converted to `HTTPException(500, str(e))`; any other
Python error propagates uncaught. -/
def handleFailure : Failure → RunResult
  | .agents e => .httpError 500 e.desc
  | .py e => .uncaught e

/-- `run_agents` (lines 97-167): acquire the gateway, run the source
Business Finder, then the destination Business Finder, then the
Similarity Finder on the source list, and assemble the `RunResponse`.
The second component is the ordered list of agent invocations started. -/
def run_agents (rt : AgentRuntime) (req : RunRequest) : RunResult × List Invocation :=
  match rt.gateway with
  | .error e => (.httpError 500 e.desc, [])
  | .ok _ =>
    match run_business_agent rt req.source_address req.source_radius req.industries with
    | (t1, .error f) => (handleFailure f, t1)
    | (t1, .ok source_businesses) =>
      match run_business_agent rt req.destination_address req.destination_radius req.industries with
      | (t2, .error f) => (handleFailure f, t1 ++ t2)
      | (t2, .ok destination_businesses) =>
        match joinIndustries req.industries with
        | .error e => (.uncaught e, t1 ++ t2)
        | .ok joined =>
          let inv := similarityInvocation req.comparison_city joined source_businesses
          match rt.runSimilarity inv with
          | .error e => (.httpError 500 e.desc, t1 ++ t2 ++ [inv])
          | .ok similar_area =>
            (.ok { source_businesses := { businesses := source_businesses }
                   destination_businesses := { businesses := destination_businesses }
                   similar_area := similar_area },
             t1 ++ t2 ++ [inv])

/-! ### JSON serialization of the response

Pydantic serializes a `RunResponse` with every declared field present, in
declaration order, `None` rendered as JSON null; reading a response back
validates each field by its annotation.  `fromJson` functions parse
exactly the shape the serializer emits.
-/

/-- Serialize an optional rational field (`None` becomes null). -/
def optNumToJson : Option ℚ → Json
  | none => .null
  | some q => .num q

/-- Serialize an optional integer field. -/
def optIntToJson : Option Int → Json
  | none => .null
  | some n => .num (n : ℚ)

/-- Serialize an optional string field. -/
def optStrToJson : Option String → Json
  | none => .null
  | some s => .str s

/-- Serialize a `LocationItem` in field-declaration order. -/
def locToJson (b : LocationItem) : Json :=
  .obj [("location_name", .str b.location_name),
        ("latitude", .num b.latitude),
        ("longitude", .num b.longitude),
        ("rating", optNumToJson b.rating),
        ("number_of_reviews", optIntToJson b.number_of_reviews),
        ("description", optStrToJson b.description),
        ("distance_meters", optNumToJson b.distance_meters)]

/-- Serialize a `BusinessListOutput`. -/
def businessListToJson (o : BusinessListOutput) : Json :=
  .obj [("businesses", .arr (o.businesses.map locToJson))]

/-- Serialize a `SimilarAreaOutput`. -/
def similarAreaToJson (o : SimilarAreaOutput) : Json :=
  .obj [("center_latitude", .num o.center_latitude),
        ("center_longitude", .num o.center_longitude),
        ("radius_meters", .num o.radius_meters),
        ("matched_businesses", .arr (o.matched_businesses.map locToJson))]

/-- Serialize a `RunResponse`. -/
def responseToJson (r : RunResponse) : Json :=
  .obj [("source_businesses", businessListToJson r.source_businesses),
        ("destination_businesses", businessListToJson r.destination_businesses),
        ("similar_area", similarAreaToJson r.similar_area)]

/-- Parse an `Optional[float]` field: null or a number. -/
def optNumFromJson : Json → Except String (Option ℚ)
  | .null => .ok none
  | .num q => .ok (some q)
  | _ => .error "number or null expected"

/-- Parse an `Optional[int]` field: null or an integral number. -/
def optIntFromJson : Json → Except String (Option Int)
  | .null => .ok none
  | .num q => if q.den = 1 then .ok (some q.num) else .error "integer expected"
  | _ => .error "integer or null expected"

/-- Parse an `Optional[str]` field: null or a string. -/
def optStrFromJson : Json → Except String (Option String)
  | .null => .ok none
  | .str s => .ok (some s)
  | _ => .error "string or null expected"

/-- Parse a rational number field. -/
def numFromJson : Json → Except String ℚ
  | .num q => .ok q
  | _ => .error "number expected"

/-- Parse a `LocationItem` from its serialized shape. -/
def locFromJson : Json → Except String LocationItem
  | .obj [("location_name", ln), ("latitude", la), ("longitude", lo), ("rating", r),
          ("number_of_reviews", n), ("description", d), ("distance_meters", dm)] => do
    let ln ← asStr ln
    let la ← numFromJson la
    let lo ← numFromJson lo
    let r ← optNumFromJson r
    let n ← optIntFromJson n
    let d ← optStrFromJson d
    let dm ← optNumFromJson dm
    .ok { location_name := ln, latitude := la, longitude := lo, rating := r,
          number_of_reviews := n, description := d, distance_meters := dm }
  | _ => .error "LocationItem object expected"

/-- Parse a list of `LocationItem`. -/
def locListFromJson : List Json → Except String (List LocationItem)
  | [] => .ok []
  | j :: rest => do
    let b ← locFromJson j
    let bs ← locListFromJson rest
    .ok (b :: bs)

/-- Parse a `BusinessListOutput` from its serialized shape. -/
def businessListFromJson : Json → Except String BusinessListOutput
  | .obj [("businesses", .arr xs)] => do
    let bs ← locListFromJson xs
    .ok { businesses := bs }
  | _ => .error "BusinessListOutput object expected"

/-- Parse a `SimilarAreaOutput` from its serialized shape. -/
def similarAreaFromJson : Json → Except String SimilarAreaOutput
  | .obj [("center_latitude", cla), ("center_longitude", clo), ("radius_meters", rm),
          ("matched_businesses", .arr xs)] => do
    let cla ← numFromJson cla
    let clo ← numFromJson clo
    let rm ← numFromJson rm
    let bs ← locListFromJson xs
    .ok { center_latitude := cla, center_longitude := clo, radius_meters := rm,
          matched_businesses := bs }
  | _ => .error "SimilarAreaOutput object expected"

/-- Parse a `RunResponse` from its serialized shape. -/
def responseFromJson : Json → Except String RunResponse
  | .obj [("source_businesses", sb), ("destination_businesses", db), ("similar_area", sa)] => do
    let sb ← businessListFromJson sb
    let db ← businessListFromJson db
    let sa ← similarAreaFromJson sa
    .ok { source_businesses := sb, destination_businesses := db, similar_area := sa }
  | _ => .error "RunResponse object expected"

/-! ### Invocation descriptors per orchestration step -/

/-- The invocation issued in step 1 for a request whose industries list is
`inds`. -/
def sourceInvocation (req : RunRequest) (inds : List String) : Invocation :=
  businessInvocation req.source_address req.source_radius (String.intercalate " or " inds)

/-- The invocation issued in step 2. -/
def destinationInvocation (req : RunRequest) (inds : List String) : Invocation :=
  businessInvocation req.destination_address req.destination_radius
    (String.intercalate " or " inds)

/-- The invocation issued in step 3, given the source business list. -/
def simInvocation (req : RunRequest) (inds : List String) (src : List LocationItem) : Invocation :=
  similarityInvocation req.comparison_city (String.intercalate " or " inds) src

/-! ### Concrete requests, runtimes and records used to exercise the model -/

/-- The spec's example request (spec section 8). -/
def sampleReq : RunRequest :=
  { source_address := "1 Main St, Springfield"
    source_radius := 500
    destination_address := "1 Main St, Shelbyville"
    destination_radius := 500
    comparison_city := "Capital City"
    industries := some ["coffee shop"] }

/-- The sample request with an empty industries list. -/
def emptyIndustriesReq : RunRequest :=
  { sampleReq with industries := some [] }

/-- A request whose industries field was supplied as an explicit null. -/
def nullIndustriesReq : RunRequest :=
  { source_address := "A", source_radius := 500, destination_address := "B",
    destination_radius := 500, comparison_city := "C", industries := none }

/-- A request body carrying an explicit `"industries": null`. -/
def nullIndustriesJson : Json :=
  .obj [("source_address", .str "A"), ("source_radius", .num 500),
        ("destination_address", .str "B"), ("destination_radius", .num 500),
        ("comparison_city", .str "C"), ("industries", .null)]

/-- A request body with a negative source radius and a zero destination
radius. -/
def nonPositiveRadiusJson : Json :=
  .obj [("source_address", .str "A"), ("source_radius", .num (-5)),
        ("destination_address", .str "B"), ("destination_radius", .num 0),
        ("comparison_city", .str "C"), ("industries", .arr [.str "retail"])]

/-- What `nonPositiveRadiusJson` validates to. -/
def nonPositiveRadiusReq : RunRequest :=
  { source_address := "A", source_radius := -5, destination_address := "B",
    destination_radius := 0, comparison_city := "C", industries := some ["retail"] }

/-- A sample source-side business. -/
def springBusiness : LocationItem :=
  { location_name := "Springfield Beans", latitude := 1, longitude := 2,
    rating := some 4, number_of_reviews := some 10,
    description := some "coffee shop", distance_meters := some 100 }

/-- A sample destination-side business. -/
def shelbyBusiness : LocationItem :=
  { location_name := "Shelbyville Roasters", latitude := 3, longitude := 4,
    rating := some 5, number_of_reviews := some 20,
    description := some "coffee shop", distance_meters := some 200 }

/-- A business whose rating and review count are exactly zero. -/
def zeroRatedBusiness : LocationItem :=
  { location_name := "Cafe Zero", latitude := 1, longitude := 2,
    rating := some 0, number_of_reviews := some 0,
    description := some "coffee shop", distance_meters := some 10 }

/-- A sample similarity verdict. -/
def capitalArea : SimilarAreaOutput :=
  { center_latitude := 7, center_longitude := 8, radius_meters := 800,
    matched_businesses := [shelbyBusiness] }

/-- A runtime in which every step succeeds; the two Business Finder
agents are told apart by their declared names. -/
def sampleRuntime : AgentRuntime :=
  { gateway := .ok ()
    runBusiness := fun inv =>
      if inv.agentName = "Business Finder - 1 Main St, Springfield" then
        .ok { businesses := [springBusiness] }
      else
        .ok { businesses := [shelbyBusiness] }
    runSimilarity := fun _ => .ok capitalArea }

/-- A runtime in which every agent invocation fails. -/
def failAllRuntime : AgentRuntime :=
  { gateway := .ok ()
    runBusiness := fun _ => .error { desc := "Max turns (15) exceeded" }
    runSimilarity := fun _ => .error { desc := "Max turns (20) exceeded" } }

/-- A runtime in which acquiring the Mapping Tool Gateway fails. -/
def gatewayFailRuntime : AgentRuntime :=
  { gateway := .error { desc := "MCP server failed to start" }
    runBusiness := fun _ => .error { desc := "unreachable" }
    runSimilarity := fun _ => .error { desc := "unreachable" } }

/-! ### Round-trip lemmas for the serialization -/

lemma locFromJson_locToJson (b : LocationItem) : locFromJson (locToJson b) = .ok b := by
  obtain ⟨ln, la, lo, r, n, d, dm⟩ := b
  cases r <;> cases n <;> cases d <;> cases dm <;> rfl

lemma locListFromJson_map (bs : List LocationItem) :
    locListFromJson (bs.map locToJson) = .ok bs := by
  induction bs with
  | nil => rfl
  | cons b rest ih =>
    simp only [List.map_cons, locListFromJson, locFromJson_locToJson, ih]
    rfl

lemma businessListFromJson_toJson (o : BusinessListOutput) :
    businessListFromJson (businessListToJson o) = .ok o := by
  simp only [businessListToJson, businessListFromJson, locListFromJson_map]
  rfl

lemma similarAreaFromJson_toJson (o : SimilarAreaOutput) :
    similarAreaFromJson (similarAreaToJson o) = .ok o := by
  simp only [similarAreaToJson, similarAreaFromJson, numFromJson, locListFromJson_map]
  rfl

/-! ### Characterizations of the orchestration -/

lemma run_agents_gateway_err {rt : AgentRuntime} (req : RunRequest) {e : AgentsError}
    (h : rt.gateway = .error e) :
    run_agents rt req = (.httpError 500 e.desc, []) := by
  simp [run_agents, h]

lemma run_agents_industries_none {rt : AgentRuntime} {req : RunRequest}
    (hgw : rt.gateway = .ok ()) (hind : req.industries = none) :
    run_agents rt req = (.uncaught (.typeError "can only join an iterable"), []) := by
  simp [run_agents, run_business_agent, joinIndustries, hgw, hind, handleFailure]

lemma run_agents_source_err {rt : AgentRuntime} {req : RunRequest} {inds : List String}
    {e : AgentsError}
    (hgw : rt.gateway = .ok ()) (hind : req.industries = some inds)
    (hs : rt.runBusiness (sourceInvocation req inds) = .error e) :
    run_agents rt req = (.httpError 500 e.desc, [sourceInvocation req inds]) := by
  simp only [sourceInvocation] at hs ⊢
  simp [run_agents, run_business_agent, joinIndustries, hgw, hind, handleFailure, hs]

lemma run_agents_dest_err {rt : AgentRuntime} {req : RunRequest} {inds : List String}
    {src : BusinessListOutput} {e : AgentsError}
    (hgw : rt.gateway = .ok ()) (hind : req.industries = some inds)
    (hs : rt.runBusiness (sourceInvocation req inds) = .ok src)
    (hd : rt.runBusiness (destinationInvocation req inds) = .error e) :
    run_agents rt req =
      (.httpError 500 e.desc, [sourceInvocation req inds, destinationInvocation req inds]) := by
  simp only [sourceInvocation, destinationInvocation] at hs hd ⊢
  simp [run_agents, run_business_agent, joinIndustries, hgw, hind, handleFailure, hs, hd]

lemma run_agents_sim_err {rt : AgentRuntime} {req : RunRequest} {inds : List String}
    {src dst : BusinessListOutput} {e : AgentsError}
    (hgw : rt.gateway = .ok ()) (hind : req.industries = some inds)
    (hs : rt.runBusiness (sourceInvocation req inds) = .ok src)
    (hd : rt.runBusiness (destinationInvocation req inds) = .ok dst)
    (hm : rt.runSimilarity (simInvocation req inds src.businesses) = .error e) :
    run_agents rt req =
      (.httpError 500 e.desc,
       [sourceInvocation req inds, destinationInvocation req inds,
        simInvocation req inds src.businesses]) := by
  simp only [sourceInvocation, destinationInvocation, simInvocation] at hs hd hm ⊢
  simp [run_agents, run_business_agent, joinIndustries, hgw, hind, handleFailure, hs, hd, hm]

lemma run_agents_success {rt : AgentRuntime} {req : RunRequest} {inds : List String}
    {src dst : BusinessListOutput} {sim : SimilarAreaOutput}
    (hgw : rt.gateway = .ok ()) (hind : req.industries = some inds)
    (hs : rt.runBusiness (sourceInvocation req inds) = .ok src)
    (hd : rt.runBusiness (destinationInvocation req inds) = .ok dst)
    (hm : rt.runSimilarity (simInvocation req inds src.businesses) = .ok sim) :
    run_agents rt req =
      (.ok { source_businesses := { businesses := src.businesses }
             destination_businesses := { businesses := dst.businesses }
             similar_area := sim },
       [sourceInvocation req inds, destinationInvocation req inds,
        simInvocation req inds src.businesses]) := by
  simp only [sourceInvocation, destinationInvocation, simInvocation] at hs hd hm ⊢
  simp [run_agents, run_business_agent, joinIndustries, hgw, hind, handleFailure, hs, hd, hm]

lemma businessInvocation_budget (a : String) (r : Int) (j : String) :
    ((businessInvocation a r j).output_type = .businessList →
      (businessInvocation a r j).max_turns = 15) ∧
    ((businessInvocation a r j).output_type = .similarArea →
      (businessInvocation a r j).max_turns = 20) := by
  simp [businessInvocation]

lemma similarityInvocation_budget (c : String) (j : String) (bs : List LocationItem) :
    ((similarityInvocation c j bs).output_type = .businessList →
      (similarityInvocation c j bs).max_turns = 15) ∧
    ((similarityInvocation c j bs).output_type = .similarArea →
      (similarityInvocation c j bs).max_turns = 20) := by
  simp [similarityInvocation]

lemma run_agents_not_uncaught {rt : AgentRuntime} {req : RunRequest} {inds : List String}
    (hind : req.industries = some inds) (e : PyError) :
    (run_agents rt req).1 ≠ .uncaught e := by
  cases hgw : rt.gateway with
  | error g => rw [run_agents_gateway_err req hgw]; simp
  | ok u =>
    cases u
    cases hs : rt.runBusiness (sourceInvocation req inds) with
    | error g => rw [run_agents_source_err hgw hind hs]; simp
    | ok src =>
      cases hd : rt.runBusiness (destinationInvocation req inds) with
      | error g => rw [run_agents_dest_err hgw hind hs hd]; simp
      | ok dst =>
        cases hm : rt.runSimilarity (simInvocation req inds src.businesses) with
        | error g => rw [run_agents_sim_err hgw hind hs hd hm]; simp
        | ok sim => rw [run_agents_success hgw hind hs hd hm]; simp

/-! ### The claims -/

/-- C1: for every request, if the agent runtime raises a failure during any
of the three agent invocations, the orchestration aborts and the failure
becomes a single HTTP 500 whose detail is the failure's description, with
no partial results (the result is the error alone, not a response). -/
theorem C1_runtime_failure_single_500 (rt : AgentRuntime) (req : RunRequest)
    (inds : List String) (e : AgentsError)
    (hgw : rt.gateway = .ok ()) (hind : req.industries = some inds) :
    (rt.runBusiness (sourceInvocation req inds) = .error e →
      (run_agents rt req).1 = .httpError 500 e.desc) ∧
    (∀ src, rt.runBusiness (sourceInvocation req inds) = .ok src →
      rt.runBusiness (destinationInvocation req inds) = .error e →
      (run_agents rt req).1 = .httpError 500 e.desc) ∧
    (∀ src dst, rt.runBusiness (sourceInvocation req inds) = .ok src →
      rt.runBusiness (destinationInvocation req inds) = .ok dst →
      rt.runSimilarity (simInvocation req inds src.businesses) = .error e →
      (run_agents rt req).1 = .httpError 500 e.desc) := by
  refine ⟨fun hs => ?_, fun src hs hd => ?_, fun src dst hs hd hm => ?_⟩
  · rw [run_agents_source_err hgw hind hs]
  · rw [run_agents_dest_err hgw hind hs hd]
  · rw [run_agents_sim_err hgw hind hs hd hm]

/-- Witness for C1: with a runtime whose source Business Finder fails,
the endpoint answers HTTP 500 carrying the failure's description. -/
theorem C1_witness :
    failAllRuntime.gateway = .ok () ∧
    sampleReq.industries = some ["coffee shop"] ∧
    failAllRuntime.runBusiness (sourceInvocation sampleReq ["coffee shop"]) =
      .error { desc := "Max turns (15) exceeded" } ∧
    (run_agents failAllRuntime sampleReq).1 = .httpError 500 "Max turns (15) exceeded" :=
  ⟨rfl, rfl, rfl,
    (C1_runtime_failure_single_500 failAllRuntime sampleReq ["coffee shop"]
      { desc := "Max turns (15) exceeded" } rfl rfl).1 rfl⟩

/-- C2: if the source-address Business Finder invocation fails, the request
fails with HTTP 500 and the started-invocation trace holds that single
invocation only: neither the destination Business Finder nor the
Similarity Finder was started. -/
theorem C2_source_failure_short_circuits (rt : AgentRuntime) (req : RunRequest)
    (inds : List String) (e : AgentsError)
    (hgw : rt.gateway = .ok ()) (hind : req.industries = some inds)
    (hs : rt.runBusiness (sourceInvocation req inds) = .error e) :
    run_agents rt req = (.httpError 500 e.desc, [sourceInvocation req inds]) :=
  run_agents_source_err hgw hind hs

/-- Witness for C2: the failing sample run starts exactly one invocation,
the source one. -/
theorem C2_witness :
    failAllRuntime.gateway = .ok () ∧
    sampleReq.industries = some ["coffee shop"] ∧
    failAllRuntime.runBusiness (sourceInvocation sampleReq ["coffee shop"]) =
      .error { desc := "Max turns (15) exceeded" } ∧
    run_agents failAllRuntime sampleReq =
      (.httpError 500 "Max turns (15) exceeded", [sourceInvocation sampleReq ["coffee shop"]]) :=
  ⟨rfl, rfl, rfl,
    C2_source_failure_short_circuits failAllRuntime sampleReq ["coffee shop"]
      { desc := "Max turns (15) exceeded" } rfl rfl rfl⟩

/-- C3: a Mapping Tool Gateway acquisition failure becomes an HTTP 500
with the failure's description, with zero agent invocations attempted. -/
theorem C3_gateway_failure_no_invocations (rt : AgentRuntime) (req : RunRequest)
    (e : AgentsError) (h : rt.gateway = .error e) :
    run_agents rt req = (.httpError 500 e.desc, []) :=
  run_agents_gateway_err req h

/-- Witness for C3: a runtime whose gateway fails to start yields HTTP 500
and an empty invocation trace. -/
theorem C3_witness :
    gatewayFailRuntime.gateway = .error { desc := "MCP server failed to start" } ∧
    run_agents gatewayFailRuntime sampleReq = (.httpError 500 "MCP server failed to start", []) :=
  ⟨rfl,
    C3_gateway_failure_no_invocations gatewayFailRuntime sampleReq
      { desc := "MCP server failed to start" } rfl⟩

/-- C4 counterexample: request validation accepts a body whose source
radius is -5 and whose destination radius is 0, so accepted radii need
not be positive. -/
theorem C4_counterexample :
    RunRequest.model_validate nonPositiveRadiusJson = .ok nonPositiveRadiusReq ∧
    ¬ (0 < nonPositiveRadiusReq.source_radius) ∧
    ¬ (0 < nonPositiveRadiusReq.destination_radius) :=
  ⟨rfl, by decide, by decide⟩

/-- C4 amended: every `RunRequest` accepted by request validation has
`source_radius` and `destination_radius` equal to the integers carried by
the corresponding request fields (validation enforces only the integer
type; positivity is not enforced). -/
theorem C4_amended_radii_integers (j : Json) (req : RunRequest)
    (h : RunRequest.model_validate j = .ok req) :
    fieldInt j "source_radius" = .ok req.source_radius ∧
    fieldInt j "destination_radius" = .ok req.destination_radius := by
  cases hsa : fieldStr j "source_address" with
  | error e => simp [RunRequest.model_validate, hsa] at h
  | ok sa =>
  cases hsr : fieldInt j "source_radius" with
  | error e => simp [RunRequest.model_validate, hsa, hsr] at h
  | ok sr =>
  cases hda : fieldStr j "destination_address" with
  | error e => simp [RunRequest.model_validate, hsa, hsr, hda] at h
  | ok da =>
  cases hdr : fieldInt j "destination_radius" with
  | error e => simp [RunRequest.model_validate, hsa, hsr, hda, hdr] at h
  | ok dr =>
  cases hcc : fieldStr j "comparison_city" with
  | error e => simp [RunRequest.model_validate, hsa, hsr, hda, hdr, hcc] at h
  | ok cc =>
  cases hin : fieldIndustries j "industries" with
  | error e => simp [RunRequest.model_validate, hsa, hsr, hda, hdr, hcc, hin] at h
  | ok ind =>
    simp only [RunRequest.model_validate, hsa, hsr, hda, hdr, hcc, hin,
      Except.ok.injEq] at h
    subst h
    simp [hsr, hdr]

/-- Witness for C4 amended: the accepted non-positive-radius body has its
radii read back verbatim from its integer fields. -/
theorem C4_amended_witness :
    RunRequest.model_validate nonPositiveRadiusJson = .ok nonPositiveRadiusReq ∧
    fieldInt nonPositiveRadiusJson "source_radius" = .ok nonPositiveRadiusReq.source_radius ∧
    fieldInt nonPositiveRadiusJson "destination_radius" =
      .ok nonPositiveRadiusReq.destination_radius :=
  ⟨rfl,
    (C4_amended_radii_integers nonPositiveRadiusJson nonPositiveRadiusReq rfl).1,
    (C4_amended_radii_integers nonPositiveRadiusJson nonPositiveRadiusReq rfl).2⟩

/-- C5: on an all-successful run the response is assembled from exactly the
source Business Finder's list, the destination Business Finder's list, and
the Similarity Finder's output, where the similarity invocation is built
from the source list and the comparison city (with the industries join in
its instructions) and not from the destination list. -/
theorem C5_response_assembly (rt : AgentRuntime) (req : RunRequest)
    (inds : List String) (src dst : BusinessListOutput) (sim : SimilarAreaOutput)
    (hgw : rt.gateway = .ok ()) (hind : req.industries = some inds)
    (hs : rt.runBusiness (sourceInvocation req inds) = .ok src)
    (hd : rt.runBusiness (destinationInvocation req inds) = .ok dst)
    (hm : rt.runSimilarity (simInvocation req inds src.businesses) = .ok sim) :
    (run_agents rt req).1 =
      .ok { source_businesses := { businesses := src.businesses }
            destination_businesses := { businesses := dst.businesses }
            similar_area := sim } := by
  rw [run_agents_success hgw hind hs hd hm]

/-- Witness for C5: the sample run returns the Springfield list as source,
the Shelbyville list as destination, and the similarity verdict. -/
theorem C5_witness :
    sampleRuntime.gateway = .ok () ∧
    sampleReq.industries = some ["coffee shop"] ∧
    sampleRuntime.runBusiness (sourceInvocation sampleReq ["coffee shop"]) =
      .ok { businesses := [springBusiness] } ∧
    sampleRuntime.runBusiness (destinationInvocation sampleReq ["coffee shop"]) =
      .ok { businesses := [shelbyBusiness] } ∧
    sampleRuntime.runSimilarity (simInvocation sampleReq ["coffee shop"] [springBusiness]) =
      .ok capitalArea ∧
    (run_agents sampleRuntime sampleReq).1 =
      .ok { source_businesses := { businesses := [springBusiness] }
            destination_businesses := { businesses := [shelbyBusiness] }
            similar_area := capitalArea } :=
  ⟨rfl, rfl, rfl, rfl, rfl,
    C5_response_assembly sampleRuntime sampleReq ["coffee shop"]
      { businesses := [springBusiness] } { businesses := [shelbyBusiness] } capitalArea
      rfl rfl rfl rfl rfl⟩

/-- C6: every invocation the orchestration starts runs with `max_turns` 15
when its declared output type is the business list, and 20 when it is the
similar-area output. -/
theorem C6_turn_budgets (rt : AgentRuntime) (req : RunRequest) (inv : Invocation)
    (h : inv ∈ (run_agents rt req).2) :
    (inv.output_type = .businessList → inv.max_turns = 15) ∧
    (inv.output_type = .similarArea → inv.max_turns = 20) := by
  cases hgw : rt.gateway with
  | error g => rw [run_agents_gateway_err req hgw] at h; simp at h
  | ok u =>
    cases u
    cases hind : req.industries with
    | none => rw [run_agents_industries_none hgw hind] at h; simp at h
    | some inds =>
      cases hs : rt.runBusiness (sourceInvocation req inds) with
      | error g =>
        rw [run_agents_source_err hgw hind hs] at h
        simp only [List.mem_singleton] at h
        subst h
        exact businessInvocation_budget _ _ _
      | ok src =>
        cases hd : rt.runBusiness (destinationInvocation req inds) with
        | error g =>
          rw [run_agents_dest_err hgw hind hs hd] at h
          simp only [List.mem_cons, List.not_mem_nil, or_false] at h
          rcases h with rfl | rfl
          · exact businessInvocation_budget _ _ _
          · exact businessInvocation_budget _ _ _
        | ok dst =>
          cases hm : rt.runSimilarity (simInvocation req inds src.businesses) with
          | error g =>
            rw [run_agents_sim_err hgw hind hs hd hm] at h
            simp only [List.mem_cons, List.not_mem_nil, or_false] at h
            rcases h with rfl | rfl | rfl
            · exact businessInvocation_budget _ _ _
            · exact businessInvocation_budget _ _ _
            · exact similarityInvocation_budget _ _ _
          | ok sim =>
            rw [run_agents_success hgw hind hs hd hm] at h
            simp only [List.mem_cons, List.not_mem_nil, or_false] at h
            rcases h with rfl | rfl | rfl
            · exact businessInvocation_budget _ _ _
            · exact businessInvocation_budget _ _ _
            · exact similarityInvocation_budget _ _ _

/-- Witness for C6: the source invocation of the successful sample run is
a started invocation with the business-list output type and budget 15. -/
theorem C6_witness :
    sourceInvocation sampleReq ["coffee shop"] ∈ (run_agents sampleRuntime sampleReq).2 ∧
    ((sourceInvocation sampleReq ["coffee shop"]).output_type = .businessList →
      (sourceInvocation sampleReq ["coffee shop"]).max_turns = 15) ∧
    ((sourceInvocation sampleReq ["coffee shop"]).output_type = .similarArea →
      (sourceInvocation sampleReq ["coffee shop"]).max_turns = 20) := by
  have hgw : sampleRuntime.gateway = .ok () := rfl
  have hind : sampleReq.industries = some ["coffee shop"] := rfl
  have hs : sampleRuntime.runBusiness (sourceInvocation sampleReq ["coffee shop"]) =
      .ok { businesses := [springBusiness] } := rfl
  have hd : sampleRuntime.runBusiness (destinationInvocation sampleReq ["coffee shop"]) =
      .ok { businesses := [shelbyBusiness] } := rfl
  have hm : sampleRuntime.runSimilarity (simInvocation sampleReq ["coffee shop"] [springBusiness]) =
      .ok capitalArea := rfl
  have hmem : sourceInvocation sampleReq ["coffee shop"] ∈ (run_agents sampleRuntime sampleReq).2 := by
    rw [run_agents_success hgw hind hs hd hm]
    exact List.mem_cons_self _ _
  exact ⟨hmem, (C6_turn_budgets sampleRuntime sampleReq _ hmem).1,
    (C6_turn_budgets sampleRuntime sampleReq _ hmem).2⟩

/-- C7: with an empty industries list the orchestration never raises a
Python-level error (no crash while building the instructions and prompt),
and the prompt degenerates to the double-space phrasing. -/
theorem C7_empty_industries_no_crash (rt : AgentRuntime) (req : RunRequest)
    (hind : req.industries = some []) :
    (∀ e, (run_agents rt req).1 ≠ .uncaught e) ∧
    businessPrompt req.source_address req.source_radius (String.intercalate " or " []) =
      "Identify and return a list of all the businesses in  in a " ++
        toString req.source_radius ++ " meter radius near " ++ req.source_address ++ "." :=
  ⟨fun e => run_agents_not_uncaught hind e, rfl⟩

/-- Witness for C7: the sample request with an empty industries list does
not raise, and its source prompt carries the degenerate phrasing. -/
theorem C7_witness :
    emptyIndustriesReq.industries = some [] ∧
    (run_agents sampleRuntime emptyIndustriesReq).1 ≠
      .uncaught (.typeError "can only join an iterable") ∧
    businessPrompt emptyIndustriesReq.source_address emptyIndustriesReq.source_radius
        (String.intercalate " or " []) =
      "Identify and return a list of all the businesses in  in a " ++
        toString emptyIndustriesReq.source_radius ++ " meter radius near " ++
        emptyIndustriesReq.source_address ++ "." :=
  ⟨rfl,
    (C7_empty_industries_no_crash sampleRuntime emptyIndustriesReq rfl).1
      (.typeError "can only join an iterable"),
    (C7_empty_industries_no_crash sampleRuntime emptyIndustriesReq rfl).2⟩

/-- C8: serializing a `RunResponse` to JSON and parsing it back
reproduces the response exactly, every optional field included. -/
theorem C8_serialization_roundtrip (r : RunResponse) :
    responseFromJson (responseToJson r) = .ok r := by
  simp only [responseToJson, responseFromJson, businessListFromJson_toJson,
    similarAreaFromJson_toJson]
  rfl

/-- C9: an explicit JSON null for `industries` passes request validation
as `None`, and the orchestration then dies with a `TypeError` from
joining `None` — uncaught, bypassing the HTTP-500-with-detail conversion
(and before any invocation is started). -/
theorem C9_null_industries_typeerror :
    (RunRequest.model_validate nullIndustriesJson = .ok nullIndustriesReq ∧
      nullIndustriesReq.industries = none) ∧
    ∀ (rt : AgentRuntime) (req : RunRequest), rt.gateway = .ok () → req.industries = none →
      run_agents rt req = (.uncaught (.typeError "can only join an iterable"), []) :=
  ⟨⟨rfl, rfl⟩, fun _ _ hgw hind => run_agents_industries_none hgw hind⟩

/-- Witness for C9: the validated null-industries request makes the sample
runtime die with the uncaught `TypeError`. -/
theorem C9_witness :
    sampleRuntime.gateway = .ok () ∧
    nullIndustriesReq.industries = none ∧
    run_agents sampleRuntime nullIndustriesReq =
      (.uncaught (.typeError "can only join an iterable"), []) :=
  ⟨rfl, rfl, (C9_null_industries_typeerror).2 sampleRuntime nullIndustriesReq rfl rfl⟩

/-- C10: in the similarity prompt's per-business summary, a `None` or 0.0
rating renders as `N/A` and a `None` or 0 review count renders as 0, so a
genuine zero rating is indistinguishable from a missing one. -/
theorem C10_falsy_coalescing (b : LocationItem) :
    (b.rating = none ∨ b.rating = some 0 → ratingRepr b.rating = "N/A") ∧
    (b.number_of_reviews = none ∨ b.number_of_reviews = some 0 →
      reviewsRepr b.number_of_reviews = "0") ∧
    businessLine { b with rating := none } = businessLine { b with rating := some 0 } ∧
    businessLine { b with number_of_reviews := none } =
      businessLine { b with number_of_reviews := some 0 } := by
  refine ⟨?_, ?_, ?_, ?_⟩
  · rintro (h | h) <;> simp [h, ratingRepr]
  · rintro (h | h) <;> simp [h, reviewsRepr]
  · simp [businessLine, ratingRepr]
  · simp [businessLine, reviewsRepr]

/-- Witness for C10: the zero-rated business renders with rating `N/A`
and 0 reviews. -/
theorem C10_witness :
    (zeroRatedBusiness.rating = none ∨ zeroRatedBusiness.rating = some 0) ∧
    ratingRepr zeroRatedBusiness.rating = "N/A" ∧
    (zeroRatedBusiness.number_of_reviews = none ∨ zeroRatedBusiness.number_of_reviews = some 0) ∧
    reviewsRepr zeroRatedBusiness.number_of_reviews = "0" :=
  ⟨Or.inr rfl, (C10_falsy_coalescing zeroRatedBusiness).1 (Or.inr rfl),
    Or.inr rfl, (C10_falsy_coalescing zeroRatedBusiness).2.1 (Or.inr rfl)⟩

end MapsAgent
